import Mathlib

/-!
# Verification of the jira-mcp-bearer request-execution core

A shallow embedding of the request executor (`jiraRequest` in `index.js` /
`lib/jira-client.js`) and the TTL cache (`getCached`), with theorems about the
retry/backoff/timeout behaviour, error classification, header construction and
cache semantics.

Modelling conventions:
* JS numbers used as counters/timestamps are `Nat` (timestamp differences use
  `Int` where JS subtraction could be negative).
* A JS `Error` is a record of its `name`, `message` and optional `status` field.
* The HTTP transport (`fetch`) is an oracle `Nat → FetchOutcome` giving the
  outcome of each physical invocation in order; `hang` models a call that does
  not settle within `REQUEST_TIMEOUT_MS`, so the abort controller fires and
  `fetch` rejects with an `AbortError`.
* A parsed JSON body is a record: its `errorMessages` field (when present as an
  array of strings) and an opaque payload for the rest of the document.
* JS objects used as string-keyed maps (headers, the cache `Map`) are
  association lists without duplicate keys.
* The executor returns an execution trace: the final result, the number of
  transport invocations, the sleeps performed (in order), the number of
  `response.json()` invocations and the headers sent on each attempt.
-/

namespace JiraMcp

/-- Constants from `index.js`. -/
def REQUEST_TIMEOUT_MS : Nat := 30000

def CACHE_TTL_MS : Nat := 5 * 60 * 1000

def MAX_RETRIES : Nat := 3

def RETRY_DELAY_BASE_MS : Nat := 1000

/-- A JavaScript `Error` value: its `name`, `message`, and the optional
`status` property that `jiraRequest` attaches to HTTP-derived errors. -/
structure JsError where
  name : String
  message : String
  status : Option Nat
deriving DecidableEq, Repr

/-- A parsed JSON response body: the `errorMessages` field when present as an
array of strings (as inspected by the error-enrichment step), plus an opaque
payload standing for the rest of the document. -/
structure Body where
  errorMessages : Option (List String)
  payload : String
deriving DecidableEq, Repr

/-- Outcome of one physical `fetch` invocation. -/
inductive FetchOutcome where
  /-- The transport settles with a response: status, statusText, and the result
  of calling `response.json()` on it (which may itself reject). -/
  | resp (status : Nat) (statusText : String) (json : Except JsError Body)
  /-- The transport does not settle within `REQUEST_TIMEOUT_MS`: the abort
  controller fires and `fetch` rejects with an `AbortError`. -/
  | hang
  /-- The transport rejects with an arbitrary error (e.g. a network failure). -/
  | reject (e : JsError)
deriving Repr

/-- `response.ok` for the Fetch API: status in the range 200–299. -/
def HTTP_ok (status : Nat) : Bool :=
  200 ≤ status && status ≤ 299

/-- `[HTTP_STATUS.BAD_GATEWAY, HTTP_STATUS.SERVICE_UNAVAILABLE,
HTTP_STATUS.GATEWAY_TIMEOUT].includes(response.status)`. -/
def isRetryable (status : Nat) : Bool :=
  [502, 503, 504].contains status

/-- The `switch (response.status)` assigning `errorMessage`. -/
def classifyMessage (status : Nat) (statusText : String) : String :=
  if status = 401 then
    "Authentication failed. Your Bearer token is invalid or expired."
  else if status = 403 then
    "Permission denied. Your Bearer token does not have access to this resource."
  else if status = 404 then
    "Resource not found. Check that the issue key, project key, or endpoint is correct."
  else if status = 429 then
    "Rate limit exceeded. Please wait before making more requests."
  else if status = 500 ∨ status = 502 ∨ status = 503 ∨ status = 504 then
    "Jira server error (" ++ toString status ++ "). The server may be temporarily unavailable."
  else
    "Jira API error: " ++ toString status ++ " " ++ statusText

/-- The best-effort enrichment step: `const errorBody = await response.json();
if (errorBody.errorMessages && errorBody.errorMessages.length > 0) { errorMessage
+= ... }` with the surrounding `catch` that ignores parse failures. -/
def enrichMessage (msg : String) (json : Except JsError Body) : String :=
  match json with
  | .ok b =>
    match b.errorMessages with
    | some msgs =>
      if msgs.length > 0 then
        msg ++ "\nDetails: " ++ String.intercalate ", " msgs
      else msg
    | none => msg
  | .error _ => msg

/-- First-match lookup in an association list (JS objects are modelled without
duplicate keys, so first match is the key's value). -/
def jsLookup (m : List (String × String)) (k : String) : Option String :=
  List.lookup k m

/-- Object spread `{...a, ...b}`: keys of `a` in order with `b`'s value when
`b` also has the key, followed by keys of `b` not present in `a`. -/
def spreadMerge (a b : List (String × String)) : List (String × String) :=
  (a.map fun p => match jsLookup b p.1 with
    | some v => (p.1, v)
    | none => p) ++
    b.filter fun p => (jsLookup a p.1).isNone

/-- The headers object built for each `fetch` call:
`{ 'Authorization': ..., 'Content-Type': ..., 'User-Agent': ..., ...options.headers }`. -/
def buildHeaders (bearerToken : String) (optHeaders : List (String × String)) :
    List (String × String) :=
  spreadMerge
    [("Authorization", "Bearer " ++ bearerToken),
     ("Content-Type", "application/json"),
     ("User-Agent", "jira-mcp-bearer/1.0.0")]
    optHeaders

/-- The `AbortError`-to-timeout conversion in the `catch` block:
`new Error('Request timeout: The request took longer than ' +
REQUEST_TIMEOUT_MS / 1000 + ' seconds')`. -/
def timeoutError : JsError :=
  { name := "Error"
    message := "Request timeout: The request took longer than " ++
      toString (REQUEST_TIMEOUT_MS / 1000) ++ " seconds"
    status := none }

/-- The observable trace of one logical `jiraRequest` call. -/
structure ExecResult where
  /-- The value returned (`none` for a 204 response) or the error thrown. -/
  result : Except JsError (Option Body)
  /-- How many times the transport (`fetch`) was invoked. -/
  fetchCount : Nat
  /-- The backoff sleeps performed, in order, in milliseconds. -/
  sleeps : List Nat
  /-- How many times `response.json()` was invoked. -/
  parseCount : Nat
  /-- The headers object passed to each `fetch` invocation, in order. -/
  headersSent : List (List (String × String))
deriving Repr

/-- One physical attempt of `jiraRequest` with its retry recursion, indexed by
the number of transport invocations already performed (`attempt`) and the
remaining retry budget (`retries`).  Follows `index.js` lines 147–252; the
delay formula `RETRY_DELAY_BASE_MS * (MAX_RETRIES - retries + 1)` is computed
in `Nat`, which agrees with JS on every reachable budget (`retries ≤ MAX_RETRIES`). -/
def jiraRequestGo (bearerToken : String) (optHeaders : List (String × String))
    (transport : Nat → FetchOutcome) (attempt : Nat) (retries : Nat) : ExecResult :=
  let hdrs := buildHeaders bearerToken optHeaders
  match transport attempt with
  | .hang =>
    -- timeout fires, fetch rejects with AbortError, the catch converts it
    { result := .error timeoutError, fetchCount := 1, sleeps := [],
      parseCount := 0, headersSent := [hdrs] }
  | .reject e =>
    if e.name = "AbortError" then
      { result := .error timeoutError, fetchCount := 1, sleeps := [],
        parseCount := 0, headersSent := [hdrs] }
    else
      { result := .error e, fetchCount := 1, sleeps := [],
        parseCount := 0, headersSent := [hdrs] }
  | .resp status statusText json =>
    if HTTP_ok status then
      if status = 204 then
        { result := .ok none, fetchCount := 1, sleeps := [],
          parseCount := 0, headersSent := [hdrs] }
      else
        match json with
        | .ok b =>
          { result := .ok (some b), fetchCount := 1, sleeps := [],
            parseCount := 1, headersSent := [hdrs] }
        | .error e =>
          -- response.json() rejected on the success path: the outer catch
          -- sees it; an AbortError here becomes the timeout error
          if e.name = "AbortError" then
            { result := .error timeoutError, fetchCount := 1, sleeps := [],
              parseCount := 1, headersSent := [hdrs] }
          else
            { result := .error e, fetchCount := 1, sleeps := [],
              parseCount := 1, headersSent := [hdrs] }
    else
      let errorMessage := enrichMessage (classifyMessage status statusText) json
      let terminalThrow : ExecResult :=
        { result := .error ⟨"Error", errorMessage, some status⟩,
          fetchCount := 1, sleeps := [], parseCount := 1, headersSent := [hdrs] }
      -- `if (isRetryable && retries > 0)`: the `retries > 0` conjunct is a
      -- pattern match here so that the recursion is structural on the budget
      if isRetryable status then
        match retries with
        | r + 1 =>
          let delay := RETRY_DELAY_BASE_MS * (MAX_RETRIES - (r + 1) + 1)
          let rest := jiraRequestGo bearerToken optHeaders transport (attempt + 1) r
          { result := rest.result
            fetchCount := 1 + rest.fetchCount
            sleeps := delay :: rest.sleeps
            parseCount := 1 + rest.parseCount
            headersSent := hdrs :: rest.headersSent }
        | 0 => terminalThrow
      else terminalThrow

/-- A logical `jiraRequest` call with the default retry budget `MAX_RETRIES`. -/
def jiraRequest (bearerToken : String) (optHeaders : List (String × String))
    (transport : Nat → FetchOutcome) : ExecResult :=
  jiraRequestGo bearerToken optHeaders transport 0 MAX_RETRIES

/-! ## The TTL cache (`getCached` in `index.js`) -/

/-- One entry of the in-memory cache `Map`: `{ data, timestamp }`. -/
structure CacheEntry (α : Type) where
  data : α
  timestamp : Nat
deriving Repr

/-- The cache `Map`, as an association list without duplicate keys. -/
def CacheMap (α : Type) : Type := List (String × CacheEntry α)

/-- `Map.prototype.set`: overwrite the entry for the key in place, or append a
new one. -/
def mapSet {α : Type} : List (String × CacheEntry α) → String → CacheEntry α →
    List (String × CacheEntry α)
  | [], k, v => [(k, v)]
  | (k', v') :: rest, k, v =>
    if k' = k then (k, v) :: rest else (k', v') :: mapSet rest k v

/-- The observable outcome of one `getCached` call. -/
structure CacheCallResult (α : Type) where
  /-- The value returned, or the error the producer threw. -/
  result : Except JsError α
  /-- The cache `Map` after the call. -/
  cache : List (String × CacheEntry α)
  /-- Whether `fetchFn` was invoked during this call. -/
  fetchInvoked : Bool
deriving Repr

/-- `getCached(key, fetchFn, ttl)` from `index.js` lines 40–56.  `fetchRes` is
what awaiting `fetchFn()` yields (a value or a thrown error); `tNow` is
`Date.now()` at the freshness check and `tAfter` is `Date.now()` at the store
(the fetch is awaited between the two reads of the clock).  The freshness
subtraction is done in `Int`, as JS number subtraction can be negative. -/
def getCached {α : Type} (cache : List (String × CacheEntry α)) (key : String)
    (fetchRes : Except JsError α) (ttl : Nat) (tNow tAfter : Nat) :
    CacheCallResult α :=
  match List.lookup key cache with
  | some cached =>
    if (tNow : Int) - (cached.timestamp : Int) < (ttl : Int) then
      { result := .ok cached.data, cache := cache, fetchInvoked := false }
    else
      match fetchRes with
      | .ok data =>
        { result := .ok data,
          cache := mapSet cache key ⟨data, tAfter⟩, fetchInvoked := true }
      | .error e =>
        { result := .error e, cache := cache, fetchInvoked := true }
  | none =>
    match fetchRes with
    | .ok data =>
      { result := .ok data,
        cache := mapSet cache key ⟨data, tAfter⟩, fetchInvoked := true }
    | .error e =>
      { result := .error e, cache := cache, fetchInvoked := true }

/-- Whether the cache holds a fresh entry for `key` at time `tNow`: the check
on line 42 of `index.js`. -/
def hasFreshEntry {α : Type} (cache : List (String × CacheEntry α))
    (key : String) (ttl : Nat) (tNow : Nat) : Bool :=
  match List.lookup key cache with
  | some cached => decide ((tNow : Int) - (cached.timestamp : Int) < (ttl : Int))
  | none => false

/-! ## Helper lemmas about the executor -/

lemma retryable_cases {s : Nat} (h : isRetryable s = true) :
    s = 502 ∨ s = 503 ∨ s = 504 := by
  simp [isRetryable] at h
  rcases h with h | h | h <;> omega

lemma HTTP_ok_of_retryable {s : Nat} (h : isRetryable s = true) :
    HTTP_ok s = false := by
  rcases retryable_cases h with rfl | rfl | rfl <;> rfl

lemma isRetryable_false_of_not_mem {s : Nat} (h : s ∉ [502, 503, 504]) :
    isRetryable s = false := by
  simp [isRetryable]
  simp at h
  omega

lemma go_hang (tok : String) (opt : List (String × String))
    (tr : Nat → FetchOutcome) (a r : Nat) (h : tr a = .hang) :
    jiraRequestGo tok opt tr a r =
      { result := .error timeoutError, fetchCount := 1, sleeps := [],
        parseCount := 0, headersSent := [buildHeaders tok opt] } := by
  unfold jiraRequestGo
  rw [h]

lemma go_reject (tok : String) (opt : List (String × String))
    (tr : Nat → FetchOutcome) (a r : Nat) (e : JsError) (h : tr a = .reject e)
    (hname : e.name ≠ "AbortError") :
    jiraRequestGo tok opt tr a r =
      { result := .error e, fetchCount := 1, sleeps := [],
        parseCount := 0, headersSent := [buildHeaders tok opt] } := by
  conv_lhs => unfold jiraRequestGo
  rw [h]
  simp [hname]

lemma go_resp_terminal (tok : String) (opt : List (String × String))
    (tr : Nat → FetchOutcome) (a r : Nat) (st : Nat) (stx : String)
    (json : Except JsError Body) (h : tr a = .resp st stx json)
    (hok : HTTP_ok st = false) (hretry : isRetryable st = false) :
    jiraRequestGo tok opt tr a r =
      { result := .error ⟨"Error", enrichMessage (classifyMessage st stx) json, some st⟩,
        fetchCount := 1, sleeps := [], parseCount := 1,
        headersSent := [buildHeaders tok opt] } := by
  conv_lhs => unfold jiraRequestGo
  rw [h]
  simp [hok, hretry]

lemma go_resp_exhausted (tok : String) (opt : List (String × String))
    (tr : Nat → FetchOutcome) (a : Nat) (st : Nat) (stx : String)
    (json : Except JsError Body) (h : tr a = .resp st stx json)
    (hretry : isRetryable st = true) :
    jiraRequestGo tok opt tr a 0 =
      { result := .error ⟨"Error", enrichMessage (classifyMessage st stx) json, some st⟩,
        fetchCount := 1, sleeps := [], parseCount := 1,
        headersSent := [buildHeaders tok opt] } := by
  conv_lhs => unfold jiraRequestGo
  rw [h]
  simp [HTTP_ok_of_retryable hretry, hretry]

lemma go_resp_retry (tok : String) (opt : List (String × String))
    (tr : Nat → FetchOutcome) (a r : Nat) (st : Nat) (stx : String)
    (json : Except JsError Body) (h : tr a = .resp st stx json)
    (hretry : isRetryable st = true) :
    jiraRequestGo tok opt tr a (r + 1) =
      { result := (jiraRequestGo tok opt tr (a + 1) r).result
        fetchCount := 1 + (jiraRequestGo tok opt tr (a + 1) r).fetchCount
        sleeps := RETRY_DELAY_BASE_MS * (MAX_RETRIES - (r + 1) + 1) ::
          (jiraRequestGo tok opt tr (a + 1) r).sleeps
        parseCount := 1 + (jiraRequestGo tok opt tr (a + 1) r).parseCount
        headersSent := buildHeaders tok opt ::
          (jiraRequestGo tok opt tr (a + 1) r).headersSent } := by
  conv_lhs => unfold jiraRequestGo
  rw [h]
  simp [HTTP_ok_of_retryable hretry, hretry]

lemma go_resp_204 (tok : String) (opt : List (String × String))
    (tr : Nat → FetchOutcome) (a r : Nat) (stx : String)
    (json : Except JsError Body) (h : tr a = .resp 204 stx json) :
    jiraRequestGo tok opt tr a r =
      { result := .ok none, fetchCount := 1, sleeps := [],
        parseCount := 0, headersSent := [buildHeaders tok opt] } := by
  conv_lhs => unfold jiraRequestGo
  rw [h]
  simp [HTTP_ok]

lemma go_resp_success (tok : String) (opt : List (String × String))
    (tr : Nat → FetchOutcome) (a r : Nat) (st : Nat) (stx : String)
    (b : Body) (h : tr a = .resp st stx (.ok b))
    (hok : HTTP_ok st = true) (h204 : st ≠ 204) :
    jiraRequestGo tok opt tr a r =
      { result := .ok (some b), fetchCount := 1, sleeps := [],
        parseCount := 1, headersSent := [buildHeaders tok opt] } := by
  conv_lhs => unfold jiraRequestGo
  rw [h]
  simp [hok, h204]

lemma go_success_after (tok : String) (opt : List (String × String))
    (tr : Nat → FetchOutcome) (st : Nat → Nat) (stx : Nat → String)
    (js : Nat → Except JsError Body) (stOk : Nat) (stxOk : String) (b : Body)
    (hok : HTTP_ok stOk = true) (h204 : stOk ≠ 204) :
    ∀ (j a r : Nat), j ≤ r → r ≤ MAX_RETRIES →
    (∀ n, n < j → tr (a + n) = .resp (st (a + n)) (stx (a + n)) (js (a + n)) ∧
      isRetryable (st (a + n)) = true) →
    tr (a + j) = .resp stOk stxOk (.ok b) →
    jiraRequestGo tok opt tr a r =
      { result := .ok (some b), fetchCount := j + 1,
        sleeps := (List.range j).map
          (fun n => RETRY_DELAY_BASE_MS * (MAX_RETRIES - r + n + 1)),
        parseCount := j + 1,
        headersSent := List.replicate (j + 1) (buildHeaders tok opt) } := by
  intro j
  induction j with
  | zero =>
    intro a r _ _ _ hsucc
    rw [go_resp_success tok opt tr a r stOk stxOk b (by simpa using hsucc) hok h204]
    simp
  | succ j ih =>
    intro a r hjr hrM hfail hsucc
    obtain ⟨r', rfl⟩ : ∃ r', r = r' + 1 := ⟨r - 1, by omega⟩
    obtain ⟨h0, hret0⟩ := hfail 0 (by omega)
    rw [go_resp_retry tok opt tr a r' _ _ _ (by simpa using h0) hret0]
    rw [ih (a + 1) r' (by omega) (by omega)
      (fun n hn => by
        have := hfail (n + 1) (by omega)
        constructor
        · rw [show a + 1 + n = a + (n + 1) by omega]; exact this.1
        · rw [show a + 1 + n = a + (n + 1) by omega]; exact this.2)
      (by rw [show a + 1 + j = a + (j + 1) by omega]; exact hsucc)]
    simp [List.range_succ_eq_map, Function.comp]
    refine ⟨by omega, ?_, by omega, by simp [List.replicate_succ]⟩
    intro n _
    left
    simp only [MAX_RETRIES] at hrM ⊢
    omega

lemma go_exhaust (tok : String) (opt : List (String × String))
    (tr : Nat → FetchOutcome) (st : Nat → Nat) (stx : Nat → String)
    (js : Nat → Except JsError Body) :
    ∀ (r a : Nat), r ≤ MAX_RETRIES →
    (∀ n, n ≤ r → tr (a + n) = .resp (st (a + n)) (stx (a + n)) (js (a + n)) ∧
      isRetryable (st (a + n)) = true) →
    jiraRequestGo tok opt tr a r =
      { result := .error ⟨"Error",
          enrichMessage (classifyMessage (st (a + r)) (stx (a + r))) (js (a + r)),
          some (st (a + r))⟩,
        fetchCount := r + 1,
        sleeps := (List.range r).map
          (fun n => RETRY_DELAY_BASE_MS * (MAX_RETRIES - r + n + 1)),
        parseCount := r + 1,
        headersSent := List.replicate (r + 1) (buildHeaders tok opt) } := by
  intro r
  induction r with
  | zero =>
    intro a _ hfail
    obtain ⟨h0, hr0⟩ := hfail 0 (by omega)
    rw [go_resp_exhausted tok opt tr a _ _ _ (by simpa using h0) hr0]
    simp
  | succ r ih =>
    intro a hrM hfail
    rw [show a + (r + 1) = a + 1 + r from by omega]
    obtain ⟨h0, hret0⟩ := hfail 0 (by omega)
    rw [go_resp_retry tok opt tr a r _ _ _ (by simpa using h0) hret0]
    rw [ih (a + 1) (by omega)
      (fun n hn => by
        have := hfail (n + 1) (by omega)
        exact ⟨by rw [show a + 1 + n = a + (n + 1) from by omega]; exact this.1,
               by rw [show a + 1 + n = a + (n + 1) from by omega]; exact this.2⟩)]
    simp [List.range_succ_eq_map, Function.comp]
    refine ⟨by omega, ?_, by omega, by simp [List.replicate_succ]⟩
    intro n _
    left
    simp only [MAX_RETRIES] at hrM ⊢
    omega

lemma mem_headersSent (tok : String) (opt : List (String × String))
    (tr : Nat → FetchOutcome) :
    ∀ (r a : Nat) (h : List (String × String)),
      h ∈ (jiraRequestGo tok opt tr a r).headersSent → h = buildHeaders tok opt := by
  intro r
  induction r using Nat.strong_induction_on with
  | _ r ih =>
    intro a h hm
    unfold jiraRequestGo at hm
    rcases htr : tr a with ⟨s, sx, js⟩ | _ | e <;> rw [htr] at hm <;>
      repeat' split at hm
    all_goals simp at hm
    all_goals first
      | exact hm
      | (rcases hm with hm | hm <;>
          first
          | exact hm
          | exact ih _ (by omega) (a + 1) h hm)

lemma buildHeaders_lookup_auth (tok : String) (opt : List (String × String)) :
    jsLookup (buildHeaders tok opt) "Authorization" =
      some ((jsLookup opt "Authorization").getD ("Bearer " ++ tok)) := by
  cases h : List.lookup "Authorization" opt <;>
    simp [buildHeaders, spreadMerge, jsLookup, h, List.lookup]

lemma buildHeaders_lookup_contentType (tok : String) (opt : List (String × String)) :
    jsLookup (buildHeaders tok opt) "Content-Type" =
      some ((jsLookup opt "Content-Type").getD "application/json") := by
  cases h : List.lookup "Content-Type" opt <;>
    cases h2 : List.lookup "Authorization" opt <;>
      simp [buildHeaders, spreadMerge, jsLookup, h, h2, List.lookup]

lemma buildHeaders_lookup_userAgent (tok : String) (opt : List (String × String)) :
    jsLookup (buildHeaders tok opt) "User-Agent" =
      some ((jsLookup opt "User-Agent").getD "jira-mcp-bearer/1.0.0") := by
  cases h : List.lookup "User-Agent" opt <;>
    cases h2 : List.lookup "Authorization" opt <;>
      cases h3 : List.lookup "Content-Type" opt <;>
        simp [buildHeaders, spreadMerge, jsLookup, h, h2, h3, List.lookup]

lemma intercalate_go_data (s : String) :
    ∀ (l : List String) (acc : String),
      (String.intercalate.go acc s l).data =
        acc.data ++ (l.map fun a => s.data ++ a.data).flatten := by
  intro l
  induction l with
  | nil => intro acc; simp [String.intercalate.go]
  | cons a as ih =>
    intro acc
    show (String.intercalate.go (acc ++ s ++ a) s as).data = _
    rw [ih]
    simp [String.data_append]

lemma flatten_map_sublist (sep : List Char) (as : List (List Char)) :
    List.Sublist as.flatten ((as.map fun a => sep ++ a).flatten) := by
  induction as with
  | nil => simp
  | cons a as ih =>
    simp only [List.flatten_cons, List.map_cons]
    exact List.Sublist.append (List.sublist_append_right sep a) ih

lemma flatten_data_sublist_intercalate (sep : String) (msgs : List String) :
    List.Sublist ((msgs.map String.data).flatten) (String.intercalate sep msgs).data := by
  cases msgs with
  | nil => simp [String.intercalate]
  | cons a as =>
    show List.Sublist _ (String.intercalate.go a sep as).data
    rw [intercalate_go_data]
    simp only [List.map_cons, List.flatten_cons, List.map_map]
    refine List.Sublist.append (List.Sublist.refl a.data) ?_
    have := flatten_map_sublist sep.data (as.map String.data)
    simpa [List.map_map, Function.comp] using this

/-! ## Helper lemmas about the cache -/

lemma lookup_mapSet_self {α : Type} (k : String) (e : CacheEntry α) :
    ∀ c : List (String × CacheEntry α), List.lookup k (mapSet c k e) = some e := by
  intro c
  induction c with
  | nil => simp [mapSet, List.lookup]
  | cons p rest ih =>
    obtain ⟨k', v'⟩ := p
    by_cases h : k' = k
    · simp [mapSet, h, List.lookup]
    · have hk : (k == k') = false := by
        simp [Ne.symm h]
      simp only [mapSet, if_neg h, List.lookup, hk]
      exact ih

lemma getCached_not_fresh {α : Type} (c : List (String × CacheEntry α))
    (k : String) (f : Except JsError α) (ttl tN tA : Nat)
    (hstale : hasFreshEntry c k ttl tN = false) :
    getCached c k f ttl tN tA =
      match f with
      | .ok data =>
        { result := .ok data, cache := mapSet c k ⟨data, tA⟩, fetchInvoked := true }
      | .error e => { result := .error e, cache := c, fetchInvoked := true } := by
  unfold getCached
  unfold hasFreshEntry at hstale
  cases h : List.lookup k c
  case none => rfl
  case some cached =>
    rw [h] at hstale
    simp only [decide_eq_false_iff_not] at hstale
    exact if_neg hstale

/-! ## Claim theorems -/

/-- C1: For every `jiraRequest` call, the retryable statuses are exactly
{502, 503, 504}: whenever the transport returns any other non-2xx status
(401, 403, 404, 429, 500, or anything unrecognized) on the first attempt, the
transport is invoked exactly once and a terminal error is thrown carrying the
status-classified message (with any best-effort detail enrichment) and the
status code. -/
theorem jiraRequest_nonretryable_single_attempt (tok : String)
    (opt : List (String × String)) (tr : Nat → FetchOutcome) (st : Nat)
    (stx : String) (json : Except JsError Body)
    (h : tr 0 = .resp st stx json) (hok : HTTP_ok st = false)
    (hmem : st ∉ [502, 503, 504]) :
    jiraRequest tok opt tr =
      { result := .error ⟨"Error", enrichMessage (classifyMessage st stx) json, some st⟩,
        fetchCount := 1, sleeps := [], parseCount := 1,
        headersSent := [buildHeaders tok opt] } := by
  rw [jiraRequest, go_resp_terminal tok opt tr 0 MAX_RETRIES st stx json h hok
    (isRetryable_false_of_not_mem hmem)]

/-- Witness for C1 at status 404. -/
theorem jiraRequest_nonretryable_single_attempt_witness :
    (fun _ : Nat => FetchOutcome.resp 404 "Not Found" (.ok ⟨some ["A"], "x"⟩)) 0 =
      .resp 404 "Not Found" (.ok ⟨some ["A"], "x"⟩) ∧
    HTTP_ok 404 = false ∧ 404 ∉ [502, 503, 504] ∧
    jiraRequest "tok" [] (fun _ => .resp 404 "Not Found" (.ok ⟨some ["A"], "x"⟩)) =
      { result := .error ⟨"Error",
          enrichMessage (classifyMessage 404 "Not Found") (.ok ⟨some ["A"], "x"⟩),
          some 404⟩,
        fetchCount := 1, sleeps := [], parseCount := 1,
        headersSent := [buildHeaders "tok" []] } :=
  ⟨rfl, rfl, by decide,
    jiraRequest_nonretryable_single_attempt "tok" [] _ 404 "Not Found" _ rfl rfl
      (by decide)⟩

/-- C4: A transport attempt that does not resolve within `REQUEST_TIMEOUT_MS`
is aborted; `jiraRequest` throws a terminal error whose message states the
configured timeout, with exactly one transport invocation and no HTTP status
on the thrown error. -/
theorem jiraRequest_timeout_terminal (tok : String) (opt : List (String × String))
    (tr : Nat → FetchOutcome) (h : tr 0 = .hang) :
    jiraRequest tok opt tr =
      { result := .error timeoutError, fetchCount := 1, sleeps := [],
        parseCount := 0, headersSent := [buildHeaders tok opt] } ∧
    timeoutError.status = none ∧
    timeoutError.message =
      "Request timeout: The request took longer than 30 seconds" := by
  refine ⟨?_, rfl, rfl⟩
  rw [jiraRequest, go_hang tok opt tr 0 MAX_RETRIES h]

/-- Witness for C4. -/
theorem jiraRequest_timeout_terminal_witness :
    (fun _ : Nat => FetchOutcome.hang) 0 = FetchOutcome.hang ∧
    (jiraRequest "tok" [] (fun _ => .hang) =
      { result := .error timeoutError, fetchCount := 1, sleeps := [],
        parseCount := 0, headersSent := [buildHeaders "tok" []] } ∧
    timeoutError.status = none ∧
    timeoutError.message =
      "Request timeout: The request took longer than 30 seconds") :=
  ⟨rfl, jiraRequest_timeout_terminal "tok" [] _ rfl⟩

/-- C9: A 204 response makes `jiraRequest` return `null` with no attempt to
parse a response body (`parseCount = 0`). -/
theorem jiraRequest_204_returns_null (tok : String) (opt : List (String × String))
    (tr : Nat → FetchOutcome) (stx : String) (json : Except JsError Body)
    (h : tr 0 = .resp 204 stx json) :
    jiraRequest tok opt tr =
      { result := .ok none, fetchCount := 1, sleeps := [], parseCount := 0,
        headersSent := [buildHeaders tok opt] } := by
  rw [jiraRequest, go_resp_204 tok opt tr 0 MAX_RETRIES stx json h]

/-- Witness for C9. -/
theorem jiraRequest_204_returns_null_witness :
    (fun _ : Nat => FetchOutcome.resp 204 "No Content"
        (.error ⟨"SyntaxError", "no body", none⟩)) 0 =
      .resp 204 "No Content" (.error ⟨"SyntaxError", "no body", none⟩) ∧
    jiraRequest "tok" []
        (fun _ => .resp 204 "No Content" (.error ⟨"SyntaxError", "no body", none⟩)) =
      { result := .ok none, fetchCount := 1, sleeps := [], parseCount := 0,
        headersSent := [buildHeaders "tok" []] } :=
  ⟨rfl, jiraRequest_204_returns_null "tok" [] _ "No Content" _ rfl⟩

/-- C10: When the transport rejects with an error not named `AbortError`,
`jiraRequest` rethrows that error unchanged — not retried, not reclassified,
with no HTTP status attached. -/
theorem jiraRequest_transport_error_rethrown (tok : String)
    (opt : List (String × String)) (tr : Nat → FetchOutcome) (e : JsError)
    (h : tr 0 = .reject e) (hname : e.name ≠ "AbortError") :
    jiraRequest tok opt tr =
      { result := .error e, fetchCount := 1, sleeps := [], parseCount := 0,
        headersSent := [buildHeaders tok opt] } := by
  rw [jiraRequest, go_reject tok opt tr 0 MAX_RETRIES e h hname]

/-- Witness for C10 with a connection-refused-style error. -/
theorem jiraRequest_transport_error_rethrown_witness :
    (fun _ : Nat => FetchOutcome.reject ⟨"TypeError", "fetch failed", none⟩) 0 =
      .reject ⟨"TypeError", "fetch failed", none⟩ ∧
    ("TypeError" : String) ≠ "AbortError" ∧
    jiraRequest "tok" [] (fun _ => .reject ⟨"TypeError", "fetch failed", none⟩) =
      { result := .error ⟨"TypeError", "fetch failed", none⟩, fetchCount := 1,
        sleeps := [], parseCount := 0, headersSent := [buildHeaders "tok" []] } :=
  ⟨rfl, by decide,
    jiraRequest_transport_error_rethrown "tok" [] _ ⟨"TypeError", "fetch failed", none⟩
      rfl (by decide)⟩

/-- C2 counterexample: with every attempt failing 502 (a retryable status), the
transport is invoked 4 times, contradicting the claimed bound of at most
MAX_RETRIES = 3 total invocations. -/
theorem jiraRequest_four_invocations_on_persistent_502 :
    (jiraRequest "tok" []
      (fun _ => .resp 502 "Bad Gateway" (.error ⟨"SyntaxError", "bad json", none⟩))).fetchCount
      = 4 ∧
    ¬ ((jiraRequest "tok" []
      (fun _ => .resp 502 "Bad Gateway"
        (.error ⟨"SyntaxError", "bad json", none⟩))).fetchCount ≤ 3) :=
  ⟨rfl, by decide⟩

/-- C2 (amended): when every attempt fails with a retryable status, the
executor performs exactly MAX_RETRIES + 1 = 4 transport invocations (the first
attempt plus MAX_RETRIES retries), sleeping 1000/2000/3000 ms between them, and
then throws a terminal error whose message and status reflect the last
attempt's status code. -/
theorem jiraRequest_retry_exhaustion (tok : String) (opt : List (String × String))
    (tr : Nat → FetchOutcome) (st : Nat → Nat) (stx : Nat → String)
    (js : Nat → Except JsError Body)
    (htr : ∀ n, n ≤ MAX_RETRIES → tr n = .resp (st n) (stx n) (js n))
    (hretry : ∀ n, n ≤ MAX_RETRIES → isRetryable (st n) = true) :
    jiraRequest tok opt tr =
      { result := .error ⟨"Error",
          enrichMessage (classifyMessage (st MAX_RETRIES) (stx MAX_RETRIES))
            (js MAX_RETRIES),
          some (st MAX_RETRIES)⟩,
        fetchCount := MAX_RETRIES + 1,
        sleeps := [RETRY_DELAY_BASE_MS * 1, RETRY_DELAY_BASE_MS * 2,
          RETRY_DELAY_BASE_MS * 3],
        parseCount := MAX_RETRIES + 1,
        headersSent := List.replicate (MAX_RETRIES + 1) (buildHeaders tok opt) } := by
  rw [jiraRequest, go_exhaust tok opt tr st stx js MAX_RETRIES 0 (le_refl _)
    (fun n hn => ⟨by simpa using htr n hn, by simpa using hretry n hn⟩)]
  simp [MAX_RETRIES, RETRY_DELAY_BASE_MS, List.range_succ]

/-- Witness for the amended C2 with a persistent 503. -/
theorem jiraRequest_retry_exhaustion_witness :
    jiraRequest "tok" []
        (fun _ => .resp 503 "Service Unavailable" (.ok ⟨some ["down"], ""⟩)) =
      { result := .error ⟨"Error",
          enrichMessage (classifyMessage 503 "Service Unavailable")
            (.ok ⟨some ["down"], ""⟩),
          some 503⟩,
        fetchCount := MAX_RETRIES + 1,
        sleeps := [RETRY_DELAY_BASE_MS * 1, RETRY_DELAY_BASE_MS * 2,
          RETRY_DELAY_BASE_MS * 3],
        parseCount := MAX_RETRIES + 1,
        headersSent := List.replicate (MAX_RETRIES + 1) (buildHeaders "tok" []) } :=
  jiraRequest_retry_exhaustion "tok" [] _ (fun _ => 503)
    (fun _ => "Service Unavailable") (fun _ => .ok ⟨some ["down"], ""⟩)
    (fun _ _ => rfl) (fun _ _ => rfl)

/-- C3: if the first k-1 attempts fail with retryable statuses and the k-th
attempt succeeds (k within the 4-attempt budget), `jiraRequest` returns the
parsed body, the transport is invoked exactly k times, and the sleep before the
n-th retry is RETRY_DELAY_BASE_MS * n milliseconds. -/
theorem jiraRequest_success_after_retryable_failures (tok : String)
    (opt : List (String × String)) (tr : Nat → FetchOutcome) (k : Nat)
    (st : Nat → Nat) (stx : Nat → String) (js : Nat → Except JsError Body)
    (stOk : Nat) (stxOk : String) (b : Body)
    (hk1 : 1 ≤ k) (hk : k ≤ MAX_RETRIES + 1)
    (hfail : ∀ n, n < k - 1 → tr n = .resp (st n) (stx n) (js n) ∧
      isRetryable (st n) = true)
    (hsucc : tr (k - 1) = .resp stOk stxOk (.ok b))
    (hok : HTTP_ok stOk = true) (h204 : stOk ≠ 204) :
    jiraRequest tok opt tr =
      { result := .ok (some b), fetchCount := k,
        sleeps := (List.range (k - 1)).map
          (fun n => RETRY_DELAY_BASE_MS * (n + 1)),
        parseCount := k,
        headersSent := List.replicate k (buildHeaders tok opt) } := by
  rw [jiraRequest, go_success_after tok opt tr st stx js stOk stxOk b hok h204
    (k - 1) 0 MAX_RETRIES (by omega) (le_refl _)
    (fun n hn => ⟨by simpa using (hfail n hn).1, by simpa using (hfail n hn).2⟩)
    (by simpa using hsucc)]
  have hko : k - 1 + 1 = k := by omega
  simp [hko, Nat.sub_self]

/-- Witness for C3 with one 502 failure followed by a 200. -/
theorem jiraRequest_success_after_retryable_failures_witness :
    jiraRequest "tok" []
        (fun n => if n = 0 then .resp 502 "Bad Gateway" (.error ⟨"SyntaxError", "e", none⟩)
          else .resp 200 "OK" (.ok ⟨none, "payload"⟩)) =
      { result := .ok (some ⟨none, "payload"⟩), fetchCount := 2,
        sleeps := (List.range (2 - 1)).map
          (fun n => RETRY_DELAY_BASE_MS * (n + 1)),
        parseCount := 2,
        headersSent := List.replicate 2 (buildHeaders "tok" []) } :=
  jiraRequest_success_after_retryable_failures "tok" [] _ 2 (fun _ => 502)
    (fun _ => "Bad Gateway") (fun _ => .error ⟨"SyntaxError", "e", none⟩)
    200 "OK" ⟨none, "payload"⟩ (by decide) (by decide)
    (fun n hn => by
      have hn0 : n = 0 := by omega
      subst hn0
      exact ⟨rfl, rfl⟩)
    rfl rfl (by decide)

/-- C5 counterexample: a caller-supplied Authorization entry in
`options.headers` is spread after the defaults and overrides the bearer token,
so the sent Authorization header does not reflect the configured token. -/
theorem jiraRequest_authorization_overridden_by_caller :
    (jiraRequest "tok" [("Authorization", "Bearer other")]
        (fun _ => .resp 204 "No Content"
          (.error ⟨"SyntaxError", "no body", none⟩))).headersSent =
      [[("Authorization", "Bearer other"), ("Content-Type", "application/json"),
        ("User-Agent", "jira-mcp-bearer/1.0.0")]] ∧
    ("Bearer other" : String) ≠ "Bearer " ++ "tok" :=
  ⟨rfl, by decide⟩

/-- C5 (amended): every issued request carries Authorization, Content-Type and
User-Agent headers; each defaults to the bearer token, the JSON content type
and the fixed client identifier respectively, and a caller-supplied entry in
`options.headers` overrides any of them, including Authorization. -/
theorem jiraRequest_header_construction (tok : String)
    (opt : List (String × String)) (tr : Nat → FetchOutcome)
    (hdr : List (String × String))
    (hm : hdr ∈ (jiraRequest tok opt tr).headersSent) :
    jsLookup hdr "Authorization" =
      some ((jsLookup opt "Authorization").getD ("Bearer " ++ tok)) ∧
    jsLookup hdr "Content-Type" =
      some ((jsLookup opt "Content-Type").getD "application/json") ∧
    jsLookup hdr "User-Agent" =
      some ((jsLookup opt "User-Agent").getD "jira-mcp-bearer/1.0.0") := by
  have hb := mem_headersSent tok opt tr MAX_RETRIES 0 hdr hm
  subst hb
  exact ⟨buildHeaders_lookup_auth tok opt, buildHeaders_lookup_contentType tok opt,
    buildHeaders_lookup_userAgent tok opt⟩

/-- Witness for the amended C5 with a caller-supplied Content-Type. -/
theorem jiraRequest_header_construction_witness :
    [("Authorization", "Bearer " ++ "tok"), ("Content-Type", "text/plain"),
        ("User-Agent", "jira-mcp-bearer/1.0.0")] ∈
      (jiraRequest "tok" [("Content-Type", "text/plain")]
        (fun _ => .resp 204 "No Content"
          (.error ⟨"SyntaxError", "no body", none⟩))).headersSent ∧
    (jsLookup [("Authorization", "Bearer " ++ "tok"), ("Content-Type", "text/plain"),
        ("User-Agent", "jira-mcp-bearer/1.0.0")] "Authorization" =
      some ((jsLookup [("Content-Type", "text/plain")] "Authorization").getD
        ("Bearer " ++ "tok")) ∧
    jsLookup [("Authorization", "Bearer " ++ "tok"), ("Content-Type", "text/plain"),
        ("User-Agent", "jira-mcp-bearer/1.0.0")] "Content-Type" =
      some ((jsLookup [("Content-Type", "text/plain")] "Content-Type").getD
        "application/json") ∧
    jsLookup [("Authorization", "Bearer " ++ "tok"), ("Content-Type", "text/plain"),
        ("User-Agent", "jira-mcp-bearer/1.0.0")] "User-Agent" =
      some ((jsLookup [("Content-Type", "text/plain")] "User-Agent").getD
        "jira-mcp-bearer/1.0.0")) :=
  ⟨by decide,
    jiraRequest_header_construction "tok" [("Content-Type", "text/plain")]
      (fun _ => .resp 204 "No Content" (.error ⟨"SyntaxError", "no body", none⟩))
      [("Authorization", "Bearer " ++ "tok"), ("Content-Type", "text/plain"),
        ("User-Agent", "jira-mcp-bearer/1.0.0")] (by decide)⟩

/-- C6: two `getCached` calls for the same key where the second occurs while
the entry is fresh (now - timestamp < ttl, evaluated at read time against the
stored timestamp) invoke the producer exactly once (first call yes, second
call no) and both return the identical stored value. -/
theorem getCached_fresh_hit_single_fetch {α : Type}
    (c : List (String × CacheEntry α)) (k : String) (v : α)
    (ttl t1 t1' t2 t2' : Nat)
    (hmiss : List.lookup k c = none)
    (hfresh : (t2 : Int) - (t1' : Int) < (ttl : Int)) :
    (getCached c k (.ok v) ttl t1 t1').result = .ok v ∧
    (getCached c k (.ok v) ttl t1 t1').fetchInvoked = true ∧
    getCached (getCached c k (.ok v) ttl t1 t1').cache k (.ok v) ttl t2 t2' =
      { result := .ok v,
        cache := (getCached c k (.ok v) ttl t1 t1').cache,
        fetchInvoked := false } := by
  have h1 : getCached c k (.ok v) ttl t1 t1' =
      { result := .ok v, cache := mapSet c k ⟨v, t1'⟩, fetchInvoked := true } := by
    unfold getCached
    rw [hmiss]
  rw [h1]
  refine ⟨rfl, rfl, ?_⟩
  unfold getCached
  rw [lookup_mapSet_self]
  simp [hfresh]

/-- Witness for C6 on an initially empty cache. -/
theorem getCached_fresh_hit_single_fetch_witness :
    List.lookup "projects" ([] : List (String × CacheEntry Nat)) = none ∧
    ((5 : Int) - (0 : Int) < (CACHE_TTL_MS : Int)) ∧
    ((getCached ([] : List (String × CacheEntry Nat)) "projects" (.ok 7)
        CACHE_TTL_MS 0 0).result = .ok 7 ∧
    (getCached ([] : List (String × CacheEntry Nat)) "projects" (.ok 7)
        CACHE_TTL_MS 0 0).fetchInvoked = true ∧
    getCached (getCached ([] : List (String × CacheEntry Nat)) "projects" (.ok 7)
        CACHE_TTL_MS 0 0).cache "projects" (.ok 7) CACHE_TTL_MS 5 6 =
      { result := .ok 7,
        cache := (getCached ([] : List (String × CacheEntry Nat)) "projects" (.ok 7)
          CACHE_TTL_MS 0 0).cache,
        fetchInvoked := false }) :=
  ⟨rfl, by decide,
    getCached_fresh_hit_single_fetch [] "projects" 7 CACHE_TTL_MS 0 0 5 6 rfl (by decide)⟩

/-- C7: if the producer throws, `getCached` propagates the error and writes no
entry (the cache is left exactly as it was), and a subsequent call with no
fresh entry invokes the producer again. -/
theorem getCached_error_no_write {α : Type}
    (c : List (String × CacheEntry α)) (k : String) (e : JsError)
    (ttl t1 t1' : Nat)
    (hstale : hasFreshEntry c k ttl t1 = false) :
    getCached c k (.error e) ttl t1 t1' =
      { result := .error e, cache := c, fetchInvoked := true } ∧
    (∀ (f2 : Except JsError α) (t2 t2' : Nat), hasFreshEntry c k ttl t2 = false →
      (getCached c k f2 ttl t2 t2').fetchInvoked = true) := by
  constructor
  · rw [getCached_not_fresh c k (.error e) ttl t1 t1' hstale]
  · intro f2 t2 t2' hstale2
    rw [getCached_not_fresh c k f2 ttl t2 t2' hstale2]
    cases f2 <;> rfl

/-- Witness for C7: a stale entry, a failing producer, then a retry. -/
theorem getCached_error_no_write_witness :
    hasFreshEntry ([("statuses", ⟨3, 0⟩)] : List (String × CacheEntry Nat))
      "statuses" CACHE_TTL_MS 400000 = false ∧
    getCached ([("statuses", ⟨3, 0⟩)] : List (String × CacheEntry Nat)) "statuses"
        (.error ⟨"Error", "Authentication failed.", some 401⟩)
        CACHE_TTL_MS 400000 400001 =
      { result := .error ⟨"Error", "Authentication failed.", some 401⟩,
        cache := [("statuses", ⟨3, 0⟩)], fetchInvoked := true } ∧
    (getCached ([("statuses", ⟨3, 0⟩)] : List (String × CacheEntry Nat)) "statuses"
        (.ok 5) CACHE_TTL_MS 400002 400003).fetchInvoked = true :=
  ⟨by decide,
    (getCached_error_no_write [("statuses", ⟨3, 0⟩)] "statuses"
      ⟨"Error", "Authentication failed.", some 401⟩ CACHE_TTL_MS 400000 400001
      (by decide)).1,
    (getCached_error_no_write [("statuses", ⟨3, 0⟩)] "statuses"
      ⟨"Error", "Authentication failed.", some 401⟩ CACHE_TTL_MS 400000 400001
      (by decide)).2 (.ok 5) 400002 400003 (by decide)⟩

/-- C8: on a failing call whose body parses with a non-empty `errorMessages`
array, the thrown message is the status-classified message with the details
appended, containing every element in order; if the body parse fails, the
status-derived classification is unchanged. -/
theorem jiraRequest_error_detail_enrichment (tok : String)
    (opt : List (String × String)) (tr : Nat → FetchOutcome) (st : Nat)
    (stx : String) (json : Except JsError Body)
    (h : tr 0 = .resp st stx json) (hok : HTTP_ok st = false)
    (hretry : isRetryable st = false) :
    (∀ b msgs, json = .ok b → b.errorMessages = some msgs → 0 < msgs.length →
      (jiraRequest tok opt tr).result = .error ⟨"Error",
        classifyMessage st stx ++ "\nDetails: " ++ String.intercalate ", " msgs,
        some st⟩ ∧
      List.Sublist ((msgs.map String.data).flatten)
        (classifyMessage st stx ++ "\nDetails: " ++
          String.intercalate ", " msgs).data) ∧
    (∀ pe, json = .error pe →
      (jiraRequest tok opt tr).result =
        .error ⟨"Error", classifyMessage st stx, some st⟩) := by
  constructor
  · rintro b msgs rfl hmsgs hlen
    rw [jiraRequest, go_resp_terminal tok opt tr 0 MAX_RETRIES st stx _ h hok hretry]
    constructor
    · simp [enrichMessage, hmsgs, hlen]
    · have h1 := flatten_data_sublist_intercalate ", " msgs
      have h2 := h1.trans
        (List.sublist_append_right
          (classifyMessage st stx ++ "\nDetails: ").data
          (String.intercalate ", " msgs).data)
      simpa [String.data_append] using h2
  · rintro pe rfl
    rw [jiraRequest, go_resp_terminal tok opt tr 0 MAX_RETRIES st stx _ h hok hretry]
    simp [enrichMessage]

/-- Witness for C8 at status 400 with details [A, B]. -/
theorem jiraRequest_error_detail_enrichment_witness :
    (fun _ : Nat => FetchOutcome.resp 400 "Bad Request"
        (.ok ⟨some ["A", "B"], ""⟩)) 0 =
      .resp 400 "Bad Request" (.ok ⟨some ["A", "B"], ""⟩) ∧
    HTTP_ok 400 = false ∧ isRetryable 400 = false ∧
    ((jiraRequest "tok" []
        (fun _ => .resp 400 "Bad Request" (.ok ⟨some ["A", "B"], ""⟩))).result =
      .error ⟨"Error",
        classifyMessage 400 "Bad Request" ++ "\nDetails: " ++
          String.intercalate ", " ["A", "B"],
        some 400⟩ ∧
    List.Sublist (((["A", "B"] : List String).map String.data).flatten)
      (classifyMessage 400 "Bad Request" ++ "\nDetails: " ++
        String.intercalate ", " ["A", "B"]).data) :=
  ⟨rfl, rfl, rfl,
    (jiraRequest_error_detail_enrichment "tok" [] _ 400 "Bad Request"
        (.ok ⟨some ["A", "B"], ""⟩) rfl rfl rfl).1
      ⟨some ["A", "B"], ""⟩ ["A", "B"] rfl rfl (by decide)⟩

end JiraMcp
